import Mathlib

/-!
# NodeConductor — verification of the spec against the code

Shallow embedding of the state-transition executor (`nodeconductor/core/tasks.py`),
the instance action handlers (`nodeconductor/iaas/views.py`), the quota
aggregation (`QuotaStatsView.get_sum_of_quotas`) and the permission scope
filter (modelled from the spec where the filter module is not among the
sources), together with theorems settling the spec's claims.
-/

namespace NodeConductor

/-- Modelled from the spec: instance states.  The `iaas/models.py` module that
declares the `Instance` model is not among the sources; the spec lists the
state set {PROVISIONING, OFFLINE, STARTING, ONLINE, STOPPING, RESIZING,
DELETING, ERRED}. -/
inductive InstanceState where
  | PROVISIONING
  | OFFLINE
  | STARTING
  | ONLINE
  | STOPPING
  | RESIZING
  | DELETING
  | ERRED
  deriving DecidableEq

/-- Human-readable state name, standing in for Django's `get_state_display`. -/
def InstanceState.display : InstanceState → String
  | .PROVISIONING => "Provisioning"
  | .OFFLINE => "Offline"
  | .STARTING => "Starting"
  | .ONLINE => "Online"
  | .STOPPING => "Stopping"
  | .RESIZING => "Resizing"
  | .DELETING => "Deleting"
  | .ERRED => "Erred"

/-- The persisted fields of an `Instance` row that the action handlers touch:
`state`, `ram`, `cores`, `data_volume_size`, plus the cloud it belongs to
through its cloud-project membership (used by `change_flavor`'s same-cloud
check). -/
structure Instance where
  state : InstanceState
  ram : Nat
  cores : Nat
  data_volume_size : Nat
  cloud : Nat
  deriving DecidableEq

/-- A `Flavor` row: the fields read by `InstanceViewSet.change_flavor`. -/
structure Flavor where
  cloud : Nat
  ram : Nat
  cores : Nat
  deriving DecidableEq

/-- The database table for a model class: identifier → row (association list,
standing in for lookup by uuid or pk). -/
abbrev Db (ε : Type) : Type := List (Nat × ε)

/-- `model_class._default_manager.get(uuid or pk)`. -/
def dbGet {ε : Type} (db : Db ε) (id : Nat) : Option ε :=
  (db.find? (fun p => p.1 = id)).map Prod.snd

/-- Persisting a row under its identifier (`entity.save()` at commit). -/
def dbSet {ε : Type} (db : Db ε) (id : Nat) (e : ε) : Db ε :=
  db.map (fun p => if p.1 = id then (id, e) else p)

/-- A model class for `set_state`: the transition methods reachable through
`getattr(entity, transition)`.  `method name = none` means the attribute is
missing (Python would raise `AttributeError`); `some f` with `f e = none`
means django-fsm refuses the transition from `e`'s current state
(`TransitionNotAllowed`); `f e = some e2` is the in-memory mutation the
transition performs. -/
structure ModelClass (ε : Type) where
  method : String → Option (ε → Option ε)

/-- How a `set_state` call can fail: the three handled conditions collapse to
`StateChangeError`; a missing transition method would surface as Python's
`AttributeError` (left unhandled by `set_state`). -/
inductive SetStateError where
  | stateChange
  | attributeError
  deriving DecidableEq

/-- Outcome of one `set_state` call: the table after the call (unchanged when
the transaction rolled back), the error raised if any, and the audit/event
records appended by `event_logger`. -/
structure SetStateResult (ε : Type) where
  db : Db ε
  error : Option SetStateError
  events : List String
  deriving DecidableEq

/-- `nodeconductor.core.tasks.set_state(model_class, uuid_or_pk, transition)`.

Inside `transaction.atomic()` it loads the entity (`DoesNotExist` when the row
is missing), resolves and calls the transition method (`TransitionNotAllowed`
when the current state is outside the transition's source set), and saves
(`DatabaseError` on a concurrent conflicting commit, exposed here as the
`saveConflict` flag).  Each of the three is reraised as `StateChangeError` and
the transaction leaves the table untouched; `event_logger.info` runs only
after the `try` block, i.e. only on success. -/
def set_state {ε : Type} (M : ModelClass ε) (db : Db ε) (id : Nat)
    (transition : String) (saveConflict : Bool) : SetStateResult ε :=
  match dbGet db id with
  | none => ⟨db, some .stateChange, []⟩
  | some e =>
    match M.method transition with
    | none => ⟨db, some .attributeError, []⟩
    | some f =>
      match f e with
      | none => ⟨db, some .stateChange, []⟩
      | some e2 =>
        if saveConflict then ⟨db, some .stateChange, []⟩
        else ⟨dbSet db id e2, none,
          ["Finished to " ++ transition ++ " with id " ++ toString id]⟩

/-- Modelled from the spec: the `Instance` transition methods.  `iaas/models.py`
is not among the sources; the spec declares "start": OFFLINE→STARTING,
"stop": ONLINE→STOPPING, "destroy": {OFFLINE, ONLINE, ERRED}→DELETING,
"resize": OFFLINE→RESIZING, and the view layer reaches them through the
method names `schedule_starting`, `schedule_stopping`, `schedule_deletion`
and `schedule_resizing`. -/
def instanceModel : ModelClass Instance where
  method
    | "schedule_starting" =>
        some (fun i => if i.state = .OFFLINE then some { i with state := .STARTING } else none)
    | "schedule_stopping" =>
        some (fun i => if i.state = .ONLINE then some { i with state := .STOPPING } else none)
    | "schedule_deletion" =>
        some (fun i =>
          if i.state = .OFFLINE ∨ i.state = .ONLINE ∨ i.state = .ERRED then
            some { i with state := .DELETING }
          else none)
    | "schedule_resizing" =>
        some (fun i => if i.state = .OFFLINE then some { i with state := .RESIZING } else none)
    | _ => none

/-- The `supported_operations` table of `InstanceViewSet._schedule_transition`:
operation code → (transition method name, celery task scheduled on success). -/
def supported_operations : String → Option (String × String)
  | "start" => some ("schedule_starting", "schedule_starting")
  | "stop" => some ("schedule_stopping", "schedule_stopping")
  | "destroy" => some ("schedule_deletion", "schedule_deleting")
  | "flavor change" => some ("schedule_resizing", "update_flavor")
  | "disk extension" => some ("schedule_resizing", "extend_disk")
  | _ => none

/-- Outcome of a handler call that produced an HTTP response: the table after
the call, the external tasks enqueued (task name, instance id), the
audit/event records written, and the response status with its message. -/
structure HandlerResult where
  db : Db Instance
  tasks : List (String × Nat)
  events : List String
  status : Nat
  message : String
  deriving DecidableEq

/-- `InstanceViewSet._schedule_transition(request, uuid, operation)`.

`none` models an exception propagating out of the handler before the
`try` block: `get_object()` raising 404, `PermissionDenied`, or an
unsupported operation code (`KeyError`).  Otherwise `set_state` is attempted;
on `StateChangeError` the handler answers 409 Conflict without touching the
task queue, on success it enqueues exactly the one matching task via
`processing_task.delay(uuid)` and answers 202 Accepted. -/
def schedule_transition (isAdmin isStaff : Bool) (db : Db Instance) (uuid : Nat)
    (operation : String) (saveConflict : Bool) : Option HandlerResult :=
  match dbGet db uuid with
  | none => none
  | some inst =>
    if ¬ isAdmin ∧ ¬ isStaff then none
    else
      match supported_operations operation with
      | none => none
      | some (change_instance_state, processing_task) =>
        let r := set_state instanceModel db uuid change_instance_state saveConflict
        match r.error with
        | some .stateChange =>
            some ⟨r.db, [], r.events, 409,
              "Performing " ++ operation ++ " operation from instance state " ++
                inst.state.display ++ " is not allowed"⟩
        | some .attributeError => none
        | none =>
            some ⟨r.db, [(processing_task, uuid)], r.events, 202,
              operation ++ " was scheduled"⟩

/-- `InstanceViewSet.change_flavor(instance, flavor)`: rejects a flavor from a
different cloud with 400, otherwise copies `ram` and `cores` onto the
instance, saves it, and only then delegates to `_schedule_transition` for the
state change ("This is suboptimal, since it reads and writes instance
twice"). -/
def change_flavor (isAdmin isStaff : Bool) (db : Db Instance) (uuid : Nat)
    (flavor : Flavor) (saveConflict : Bool) : Option HandlerResult :=
  match dbGet db uuid with
  | none => none
  | some inst =>
    if flavor.cloud ≠ inst.cloud then
      some ⟨db, [], [], 400, "New flavor is not within the same cloud"⟩
    else
      let db2 := dbSet db uuid { inst with ram := flavor.ram, cores := flavor.cores }
      schedule_transition isAdmin isStaff db2 uuid "flavor change" saveConflict

/-- `InstanceViewSet.resize_disk(instance, new_size)`: rejects a size not
strictly greater than the current one with 400, otherwise persists the new
`data_volume_size` and delegates to `_schedule_transition`. -/
def resize_disk (isAdmin isStaff : Bool) (db : Db Instance) (uuid : Nat)
    (new_size : Nat) (saveConflict : Bool) : Option HandlerResult :=
  match dbGet db uuid with
  | none => none
  | some inst =>
    if new_size ≤ inst.data_volume_size then
      some ⟨db, [], [], 400, "Disk size must be strictly greater than the current one"⟩
    else
      let db2 := dbSet db uuid { inst with data_volume_size := new_size }
      schedule_transition isAdmin isStaff db2 uuid "disk extension" saveConflict

/-- Outcome of a function wrapped by `tracked_processing`: the table when the
wrapper returns (or when the uncaught exception escapes), whether the wrapped
processing function was invoked, and the exception that escaped the wrapper,
if any (only a missing transition method can escape; `StateChangeError` is
swallowed by the outer `except`). -/
structure TrackedOutcome (ε : Type) where
  db : Db ε
  procInvoked : Bool
  escaped : Option SetStateError
  deriving DecidableEq

/-- `nodeconductor.core.tasks.tracked_processing(model_class, processing_state,
desired_state, error_state='set_erred')` applied to a processing function.

`procFn` models `processing_fn(*args, **kwargs)`: it may mutate the world and
reports whether it raised (`true` = an exception was thrown).  `conflict1`
and `conflict2` are the concurrent-commit flags for the first and second
`set_state` calls.  The wrapper first moves the entity to `processing_state`;
on `StateChangeError` it silently stops without calling `procFn`.  Otherwise
it runs `procFn`; if that raises, it moves the entity to `error_state`, else
to `desired_state`, and in either case a `StateChangeError` from the second
call is swallowed by the outer `except StateChangeError: pass`. -/
def tracked_processing {ε : Type} (M : ModelClass ε)
    (processing_state desired_state error_state : String)
    (procFn : Db ε → Db ε × Bool) (db : Db ε) (id : Nat)
    (conflict1 conflict2 : Bool) : TrackedOutcome ε :=
  let r1 := set_state M db id processing_state conflict1
  match r1.error with
  | some .stateChange => ⟨r1.db, false, none⟩
  | some .attributeError => ⟨r1.db, false, some .attributeError⟩
  | none =>
    let (db2, raised) := procFn r1.db
    let r2 :=
      if raised then set_state M db2 id error_state conflict2
      else set_state M db2 id desired_state conflict2
    match r2.error with
    | some .stateChange => ⟨r2.db, true, none⟩
    | some .attributeError => ⟨r2.db, true, some .attributeError⟩
    | none => ⟨r2.db, true, none⟩

/-! ## Quota aggregation (`QuotaStatsView.get_sum_of_quotas`) -/

/-- The five fields shared by a `ResourceQuota` and a `ResourceQuotaUsage`
row (`fields = ['vcpu', 'ram', 'storage', 'max_instances',
'backup_storage']`). -/
structure QuotaFields where
  vcpu : Nat
  ram : Nat
  storage : Nat
  max_instances : Nat
  backup_storage : Nat
  deriving DecidableEq

/-- A cloud-project membership as seen by `get_sum_of_quotas`: accessing
`membership.resource_quota` (resp. `membership.resource_quota_usage`) either
yields the one-to-one row or raises `DoesNotExist` (`none`). -/
structure Membership where
  resource_quota : Option QuotaFields
  resource_quota_usage : Option QuotaFields
  deriving DecidableEq

/-- The accumulating dictionary `sum_of_quotas`: one slot per quota field and
per quota-usage field (a `defaultdict(lambda: 0)` restricted to the fixed
field list). -/
structure QuotaSums where
  vcpu : Nat
  ram : Nat
  storage : Nat
  max_instances : Nat
  backup_storage : Nat
  vcpu_usage : Nat
  ram_usage : Nat
  storage_usage : Nat
  max_instances_usage : Nat
  backup_storage_usage : Nat
  deriving DecidableEq

def QuotaSums.zero : QuotaSums := ⟨0, 0, 0, 0, 0, 0, 0, 0, 0, 0⟩

/-- One iteration of the `for membership in memberships` loop: the quota
fields are added when the membership has a `resource_quota` row (a missing
row raises `ResourceQuota.DoesNotExist`, caught and ignored), and the usage
fields independently when it has a `resource_quota_usage` row. -/
def addMembership (acc : QuotaSums) (m : Membership) : QuotaSums :=
  let acc1 :=
    match m.resource_quota with
    | none => acc
    | some q =>
      { acc with
        vcpu := acc.vcpu + q.vcpu
        ram := acc.ram + q.ram
        storage := acc.storage + q.storage
        max_instances := acc.max_instances + q.max_instances
        backup_storage := acc.backup_storage + q.backup_storage }
  match m.resource_quota_usage with
  | none => acc1
  | some q =>
    { acc1 with
      vcpu_usage := acc1.vcpu_usage + q.vcpu
      ram_usage := acc1.ram_usage + q.ram
      storage_usage := acc1.storage_usage + q.storage
      max_instances_usage := acc1.max_instances_usage + q.max_instances
      backup_storage_usage := acc1.backup_storage_usage + q.backup_storage }

/-- `QuotaStatsView.get_sum_of_quotas(memberships)`. -/
def get_sum_of_quotas (memberships : List Membership) : QuotaSums :=
  memberships.foldl addMembership QuotaSums.zero

/-! ## Permission scope filter

The module implementing the filter (`nodeconductor/structure/filters.py` and
`nodeconductor/backup/views.py`) is not among the sources — only its tests
and call sites are — so the filter is modelled from the spec below. -/

/-- A user as seen by the filter: identifier plus the staff/superuser flags. -/
structure User where
  id : Nat
  is_staff : Bool
  is_superuser : Bool
  deriving DecidableEq

/-- The four entity types the hierarchy claims range over. -/
inductive EntityType where
  | customer
  | projectGroup
  | project
  | vmInstance
  deriving DecidableEq

/-- Modelled from the spec: the world of entities and role assignments the
filter reads.  Customers are top-level; each project group and project
belongs to one customer; `projectInGroup` is the many-to-many link between
projects and project groups; each instance belongs to one project (through
its cloud-project membership).  Role assignments are kept per level:
Customer OWNER, ProjectGroup MANAGER, Project ADMINISTRATOR and Project
MANAGER. -/
structure World where
  customers : List Nat
  projectGroups : List (Nat × Nat)
  projects : List (Nat × Nat)
  projectInGroup : List (Nat × Nat)
  instances : List (Nat × Nat)
  customerOwners : List (Nat × Nat)
  groupManagers : List (Nat × Nat)
  projectAdmins : List (Nat × Nat)
  projectManagers : List (Nat × Nat)
  deriving DecidableEq

/-- All identifiers of a given entity type. -/
def allIds (w : World) : EntityType → List Nat
  | .customer => w.customers
  | .projectGroup => w.projectGroups.map Prod.fst
  | .project => w.projects.map Prod.fst
  | .vmInstance => w.instances.map Prod.fst

/-- The customer a project belongs to. -/
def projectCustomer (w : World) (p : Nat) : Option Nat :=
  ((w.projects.find? (fun q => q.1 = p))).map Prod.snd

/-- The project an instance belongs to. -/
def instanceProject (w : World) (i : Nat) : Option Nat :=
  ((w.instances.find? (fun q => q.1 = i))).map Prod.snd

/-- Modelled from the spec: the entities of type `T` under a customer `c`
(the customer itself, the project groups and projects with that customer,
and the instances whose project has that customer). -/
def underCustomer (w : World) (T : EntityType) (c : Nat) : List Nat :=
  match T with
  | .customer => w.customers.filter (fun x => x = c)
  | .projectGroup => (w.projectGroups.filter (fun q => q.2 = c)).map Prod.fst
  | .project => (w.projects.filter (fun q => q.2 = c)).map Prod.fst
  | .vmInstance =>
      (w.instances.filter (fun q => projectCustomer w q.2 = some c)).map Prod.fst

/-- Modelled from the spec: the entities of type `T` under a project group
`g` (the group itself, the projects in the group, and the instances whose
project is in the group). -/
def underProjectGroup (w : World) (T : EntityType) (g : Nat) : List Nat :=
  match T with
  | .customer => []
  | .projectGroup => (w.projectGroups.filter (fun q => q.1 = g)).map Prod.fst
  | .project =>
      (w.projects.filter (fun q => (q.1, g) ∈ w.projectInGroup)).map Prod.fst
  | .vmInstance =>
      (w.instances.filter (fun q => (q.2, g) ∈ w.projectInGroup)).map Prod.fst

/-- Modelled from the spec: the entities of type `T` under a project `p`
(the project itself and its instances). -/
def underProject (w : World) (T : EntityType) (p : Nat) : List Nat :=
  match T with
  | .customer => []
  | .projectGroup => []
  | .project => (w.projects.filter (fun q => q.1 = p)).map Prod.fst
  | .vmInstance => (w.instances.filter (fun q => q.2 = p)).map Prod.fst

/-- Modelled from the spec: `visible_ids(user, entity_type)`.  For a
staff/superuser it returns the sentinel `none`, meaning "all, unrestricted".
For a regular user it unions the identifiers of entities under any Customer
where the user holds OWNER, under any ProjectGroup where the user holds
MANAGER, and under any Project where the user holds ADMINISTRATOR or
MANAGER. -/
def visible_ids (w : World) (u : User) (T : EntityType) : Option (List Nat) :=
  if u.is_staff || u.is_superuser then none
  else some (
    ((w.customerOwners.filter (fun r => r.1 = u.id)).map Prod.snd).flatMap
      (underCustomer w T) ++
    ((w.groupManagers.filter (fun r => r.1 = u.id)).map Prod.snd).flatMap
      (underProjectGroup w T) ++
    ((w.projectAdmins.filter (fun r => r.1 = u.id)).map Prod.snd).flatMap
      (underProject w T) ++
    ((w.projectManagers.filter (fun r => r.1 = u.id)).map Prod.snd).flatMap
      (underProject w T))

/-- The visible identifier set with the staff sentinel resolved to the full
identifier list of the type. -/
def visibleSet (w : World) (u : User) (T : EntityType) : List Nat :=
  match visible_ids w u T with
  | none => allIds w T
  | some ids => ids

/-- Modelled from the spec: `filter_collection(user, collection)` intersects
the collection with `visible_ids`; the sentinel leaves the collection
unchanged. -/
def filter_collection (w : World) (u : User) (T : EntityType)
    (C : List Nat) : List Nat :=
  match visible_ids w u T with
  | none => C
  | some ids => C.filter (fun x => x ∈ ids)

/-- `SshKeyViewSet.get_queryset` (from `iaas/views.py`): a staff user gets the
whole key queryset, any other user only the keys whose `user` field is
their own. -/
structure SshKey where
  id : Nat
  user : Nat
  deriving DecidableEq

def sshKeyGetQueryset (u : User) (keys : List SshKey) : List SshKey :=
  if u.is_staff then keys else keys.filter (fun k => k.user = u.id)

/-! ## Example fixtures used by witnesses and counterexamples -/

def exInstOnline : Instance := ⟨.ONLINE, 1, 1, 10, 7⟩

def exInstOffline : Instance := ⟨.OFFLINE, 1, 1, 10, 7⟩

def exDbOnline : Db Instance := [(1, exInstOnline)]

def exDbOffline : Db Instance := [(1, exInstOffline)]

def exFlavor : Flavor := ⟨7, 2, 4⟩

/-- The response produced by a "start" request on the concrete OFFLINE
instance of `exDbOffline`. -/
def exStartResult : HandlerResult :=
  ⟨[(1, ⟨.STARTING, 1, 1, 10, 7⟩)], [("schedule_starting", 1)],
   ["Finished to schedule_starting with id 1"], 202, "start was scheduled"⟩

/-- A concrete model class in the shape of the `Worker` example from the
`set_state` docstring, used to exercise the generic `tracked_processing`
wrapper: a processing transition, a success transition, and the catch-all
`set_erred` error transition. -/
def demoModel : ModelClass InstanceState where
  method
    | "begin_work" =>
        some (fun s => if s = .OFFLINE then some .PROVISIONING else none)
    | "set_online" =>
        some (fun s => if s = .PROVISIONING then some .ONLINE else none)
    | "set_erred" => some (fun _ => some .ERRED)
    | _ => none

/-- The sum of one quota field over exactly the memberships that have a
`resource_quota` row. -/
def quotaRowSum (ms : List Membership) (f : QuotaFields → Nat) : Nat :=
  ((ms.filterMap Membership.resource_quota).map f).sum

/-- The sum of one quota field over exactly the memberships that have a
`resource_quota_usage` row. -/
def usageRowSum (ms : List Membership) (f : QuotaFields → Nat) : Nat :=
  ((ms.filterMap Membership.resource_quota_usage).map f).sum

/-- The role-hierarchy reachability of the claims: the user holds OWNER on a
Customer enclosing the entity, MANAGER on a ProjectGroup enclosing it, or
ADMINISTRATOR/MANAGER on a Project enclosing it. -/
def roleReachable (w : World) (u : User) (T : EntityType) (e : Nat) : Prop :=
  (∃ r ∈ w.customerOwners, r.1 = u.id ∧ e ∈ underCustomer w T r.2)
  ∨ (∃ r ∈ w.groupManagers, r.1 = u.id ∧ e ∈ underProjectGroup w T r.2)
  ∨ (∃ r ∈ w.projectAdmins, r.1 = u.id ∧ e ∈ underProject w T r.2)
  ∨ (∃ r ∈ w.projectManagers, r.1 = u.id ∧ e ∈ underProject w T r.2)

/-- A concrete world: one customer (10) with a project group (20), two
projects (30 in the group, 31 outside it), and one instance in each project
(40, 41); user 1 owns the customer, user 2 manages the group, user 3
administers project 30. -/
def exW : World where
  customers := [10]
  projectGroups := [(20, 10)]
  projects := [(30, 10), (31, 10)]
  projectInGroup := [(30, 20)]
  instances := [(40, 30), (41, 31)]
  customerOwners := [(1, 10)]
  groupManagers := [(2, 20)]
  projectAdmins := [(3, 30)]
  projectManagers := []

def uOwner : User := ⟨1, false, false⟩

def uGroupManager : User := ⟨2, false, false⟩

def uStaffEx : User := ⟨9, true, false⟩

def uNobody : User := ⟨8, false, false⟩

/-! ## Helper lemmas -/

/-- The transaction in `set_state` rolls back on every failure: an erroring
call leaves the table exactly as it was. -/
theorem set_state_db_unchanged_of_error {ε : Type} (M : ModelClass ε) (db : Db ε)
    (id : Nat) (tr : String) (c : Bool)
    (h : (set_state M db id tr c).error.isSome) : (set_state M db id tr c).db = db := by
  unfold set_state at h ⊢
  cases h1 : dbGet db id with
  | none => simp [h1]
  | some e =>
    cases h2 : M.method tr with
    | none => simp [h1, h2]
    | some f =>
      cases h3 : f e with
      | none => simp [h1, h2, h3]
      | some e2 =>
        cases c with
        | true => simp [h1, h2, h3]
        | false => simp [h1, h2, h3] at h

/-- `set_state` appends an audit/event record exactly when it succeeds. -/
theorem set_state_events_iff_success {ε : Type} (M : ModelClass ε) (db : Db ε)
    (id : Nat) (tr : String) (c : Bool) :
    (set_state M db id tr c).events ≠ [] ↔ (set_state M db id tr c).error = none := by
  unfold set_state
  cases h1 : dbGet db id with
  | none => simp [h1]
  | some e =>
    cases h2 : M.method tr with
    | none => simp [h1, h2]
    | some f =>
      cases h3 : f e with
      | none => simp [h1, h2, h3]
      | some e2 => cases c <;> simp [h1, h2, h3]

/-- An erroring `set_state` call appends no audit/event record. -/
theorem set_state_events_empty_of_error {ε : Type} (M : ModelClass ε) (db : Db ε)
    (id : Nat) (tr : String) (c : Bool)
    (h : (set_state M db id tr c).error.isSome) : (set_state M db id tr c).events = [] := by
  by_contra hne
  have hs := (set_state_events_iff_success M db id tr c).mp hne
  rw [hs] at h
  exact absurd h (by simp)

/-! ## The claims -/

/-- C2: a `set_state` call raises `StateChangeError` exactly when one of the
three handled conditions holds — the entity row is missing (`NotFound`), the
current state is outside the transition's allowed source set
(`TransitionNotAllowed`), or the commit hits a concurrent conflicting update
(`ConcurrentUpdate`); in particular none of the three conditions surfaces as
any other error kind. -/
theorem set_state_stateChangeError_iff {ε : Type} (M : ModelClass ε) (db : Db ε)
    (id : Nat) (tr : String) (conflict : Bool) :
    (set_state M db id tr conflict).error = some SetStateError.stateChange ↔
      (dbGet db id = none
       ∨ (∃ e f, dbGet db id = some e ∧ M.method tr = some f ∧ f e = none)
       ∨ (∃ e f e2, dbGet db id = some e ∧ M.method tr = some f ∧ f e = some e2 ∧
            conflict = true)) := by
  unfold set_state
  cases h1 : dbGet db id with
  | none => simp [h1]
  | some e =>
    cases h2 : M.method tr with
    | none => simp [h1, h2]
    | some f =>
      cases h3 : f e with
      | none => simp [h1, h2, h3]
      | some e2 => cases conflict <;> simp [h1, h2, h3]

/-- C2 witness: on a concrete table missing the requested id, `set_state`
reports `StateChangeError`. -/
theorem set_state_stateChangeError_iff_witness :
    (set_state instanceModel [] 1 "schedule_starting" false).error =
      some SetStateError.stateChange :=
  (set_state_stateChangeError_iff instanceModel [] 1 "schedule_starting" false).mpr
    (Or.inl (by decide))

/-- C4: a failed `set_state` call writes no audit/event record and leaves the
table untouched; the audit record appears only on success; and an instance
action request whose transition fails (any non-202 outcome of
`_schedule_transition`) enqueues no task and writes no audit record. -/
theorem no_event_no_task_on_failure {ε : Type} (M : ModelClass ε) (db : Db ε)
    (id : Nat) (tr : String) (c : Bool) (isAdmin isStaff : Bool)
    (dbI : Db Instance) (uuid : Nat) (op : String) (c2 : Bool) :
    ((set_state M db id tr c).error.isSome →
      (set_state M db id tr c).events = [] ∧ (set_state M db id tr c).db = db)
    ∧ ((set_state M db id tr c).events ≠ [] → (set_state M db id tr c).error = none)
    ∧ (∀ hr, schedule_transition isAdmin isStaff dbI uuid op c2 = some hr →
        hr.status ≠ 202 → hr.tasks = [] ∧ hr.events = []) := by
  refine ⟨fun h => ⟨set_state_events_empty_of_error M db id tr c h,
    set_state_db_unchanged_of_error M db id tr c h⟩,
    (set_state_events_iff_success M db id tr c).mp, ?_⟩
  intro hr h hst
  unfold schedule_transition at h
  split at h
  · exact absurd h (by simp)
  · split at h
    · exact absurd h (by simp)
    · split at h
      · exact absurd h (by simp)
      · dsimp only at h
        split at h
        · rename_i heq3 x herr
          injection h with h
          subst h
          exact ⟨rfl, set_state_events_empty_of_error _ _ _ _ _ (by rw [herr]; rfl)⟩
        · exact absurd h (by simp)
        · injection h with h
          subst h
          exact absurd rfl hst

/-- C4 witness: a `set_state` on an empty table fails and writes nothing, and
a concrete "start" request on an ONLINE instance answers without enqueuing a
task or writing an audit record. -/
theorem no_event_no_task_on_failure_witness :
    ((set_state instanceModel ([] : Db Instance) 1 "schedule_starting" false).events = []
      ∧ (set_state instanceModel ([] : Db Instance) 1 "schedule_starting" false).db = [])
    ∧ ∃ hr, schedule_transition true false exDbOnline 1 "start" false = some hr
        ∧ hr.tasks = [] ∧ hr.events = [] := by
  have h := no_event_no_task_on_failure instanceModel ([] : Db Instance) 1
    "schedule_starting" false true false exDbOnline 1 "start" false
  refine ⟨h.1 (by decide), ?_⟩
  refine ⟨⟨exDbOnline, [], [], 409,
    "Performing start operation from instance state Online is not allowed"⟩, ?_, ?_⟩
  · decide
  · exact h.2.2 _ (by decide) (by decide)

/-- A 409 Conflict answer from `_schedule_transition` leaves the instance
table exactly as the handler received it. -/
theorem schedule_transition_409_db_eq (isAdmin isStaff : Bool) (db : Db Instance)
    (uuid : Nat) (op : String) (c : Bool) (hr : HandlerResult)
    (h : schedule_transition isAdmin isStaff db uuid op c = some hr)
    (h409 : hr.status = 409) : hr.db = db := by
  unfold schedule_transition at h
  split at h
  · exact absurd h (by simp)
  · split at h
    · exact absurd h (by simp)
    · split at h
      · exact absurd h (by simp)
      · dsimp only at h
        split at h
        · rename_i heq3 x herr
          injection h with h
          subst h
          exact set_state_db_unchanged_of_error _ _ _ _ _ (by rw [herr]; rfl)
        · exact absurd h (by simp)
        · injection h with h
          subst h
          exact absurd h409 (by simp)

/-- C3: every instance action handled by `_schedule_transition` (start, stop,
destroy, flavor change, disk extension) either has its transition accepted —
then exactly one external task is enqueued and the response is 202 Accepted
with a status message — or rejected — then the response is 409 Conflict, no
task is enqueued and the table is unchanged. -/
theorem schedule_transition_one_task_or_conflict (isAdmin isStaff : Bool)
    (db : Db Instance) (uuid : Nat) (op : String) (c : Bool) (hr : HandlerResult)
    (h : schedule_transition isAdmin isStaff db uuid op c = some hr) :
    ∃ tn task, supported_operations op = some (tn, task) ∧
      (((set_state instanceModel db uuid tn c).error = none ∧ hr.status = 202 ∧
          hr.tasks = [(task, uuid)] ∧ hr.message = op ++ " was scheduled") ∨
       ((set_state instanceModel db uuid tn c).error = some SetStateError.stateChange ∧
          hr.status = 409 ∧ hr.tasks = [] ∧ hr.db = db)) := by
  unfold schedule_transition at h
  split at h
  · exact absurd h (by simp)
  · split at h
    · exact absurd h (by simp)
    · split at h
      · exact absurd h (by simp)
      · dsimp only at h
        rename_i tn task heq3
        split at h
        · rename_i herr
          injection h with h
          subst h
          exact ⟨tn, task, heq3, Or.inr ⟨herr, rfl, rfl,
            set_state_db_unchanged_of_error _ _ _ _ _ (by rw [herr]; rfl)⟩⟩
        · exact absurd h (by simp)
        · rename_i herr
          injection h with h
          subst h
          exact ⟨tn, task, heq3, Or.inl ⟨herr, rfl, rfl, rfl⟩⟩

/-- C3 witness: a "start" request on a concrete OFFLINE instance is accepted,
enqueues exactly the `schedule_starting` task, and answers 202. -/
theorem schedule_transition_one_task_or_conflict_witness :
    ∃ tn task, supported_operations "start" = some (tn, task) ∧
      (((set_state instanceModel exDbOffline 1 tn false).error = none ∧
          exStartResult.status = 202 ∧ exStartResult.tasks = [(task, 1)] ∧
          exStartResult.message = "start" ++ " was scheduled") ∨
       ((set_state instanceModel exDbOffline 1 tn false).error =
          some SetStateError.stateChange ∧ exStartResult.status = 409 ∧
          exStartResult.tasks = [] ∧ exStartResult.db = exDbOffline)) :=
  schedule_transition_one_task_or_conflict true false exDbOffline 1 "start" false
    exStartResult (by decide)

/-- C1 counterexample: `change_flavor` on a concrete OFFLINE instance whose
transition then fails (a concurrent conflicting commit at the `set_state`
save) answers 409 — a failed call — yet the persisted row differs from its
value before the call: the new `ram` and `cores` were saved before the
transition was attempted, so the entity is left half-mutated. -/
theorem change_flavor_half_mutation_cex :
    ∃ hr, change_flavor true false exDbOffline 1 exFlavor true = some hr ∧
      hr.status = 409 ∧ hr.db ≠ exDbOffline ∧
      dbGet hr.db 1 = some ⟨.OFFLINE, 2, 4, 10, 7⟩ := by decide

/-- C1 amended: `set_state` itself is all-or-nothing — a failed call leaves
the row untouched — and a 409 Conflict from `_schedule_transition` leaves the
table as the handler received it; but `change_flavor` persists the flavor's
`ram` and `cores`, and `resize_disk` the new `data_volume_size`, onto the
instance before attempting the transition, so after a failed (409) call
through them those field changes remain visible. -/
theorem set_state_all_or_nothing_amended {ε : Type} (M : ModelClass ε) (db : Db ε)
    (id : Nat) (tr : String) (c : Bool) (isAdmin isStaff : Bool)
    (dbI : Db Instance) (uuid : Nat) (op : String) (c2 : Bool)
    (flavor : Flavor) (new_size : Nat) (inst : Instance) :
    ((set_state M db id tr c).error.isSome → (set_state M db id tr c).db = db)
    ∧ (∀ hr, schedule_transition isAdmin isStaff dbI uuid op c2 = some hr →
        hr.status = 409 → hr.db = dbI)
    ∧ (∀ hr, dbGet dbI uuid = some inst → flavor.cloud = inst.cloud →
        change_flavor isAdmin isStaff dbI uuid flavor c2 = some hr →
        hr.status = 409 →
        hr.db = dbSet dbI uuid { inst with ram := flavor.ram, cores := flavor.cores })
    ∧ (∀ hr, dbGet dbI uuid = some inst → inst.data_volume_size < new_size →
        resize_disk isAdmin isStaff dbI uuid new_size c2 = some hr →
        hr.status = 409 →
        hr.db = dbSet dbI uuid { inst with data_volume_size := new_size }) := by
  refine ⟨set_state_db_unchanged_of_error M db id tr c,
    schedule_transition_409_db_eq isAdmin isStaff dbI uuid op c2, ?_, ?_⟩
  · intro hr hGet hCloud h h409
    unfold change_flavor at h
    rw [hGet] at h
    dsimp only at h
    rw [if_neg (by simp [hCloud])] at h
    exact schedule_transition_409_db_eq isAdmin isStaff _ uuid "flavor change" c2 hr h h409
  · intro hr hGet hSize h h409
    unfold resize_disk at h
    rw [hGet] at h
    dsimp only at h
    rw [if_neg (by omega)] at h
    exact schedule_transition_409_db_eq isAdmin isStaff _ uuid "disk extension" c2 hr h h409

/-- C1 amended witness: a concrete failed `set_state` leaves the row intact,
the concrete failed `change_flavor` of the counterexample leaves exactly the
pre-saved `ram`/`cores` update in the table, and a concrete failed
`resize_disk` likewise leaves the pre-saved `data_volume_size` update. -/
theorem set_state_all_or_nothing_amended_witness :
    (set_state instanceModel exDbOnline 1 "schedule_starting" false).db = exDbOnline
    ∧ (∃ hr, change_flavor true false exDbOffline 1 exFlavor true = some hr ∧
        hr.db = dbSet exDbOffline 1
          { exInstOffline with ram := exFlavor.ram, cores := exFlavor.cores })
    ∧ (∃ hr, resize_disk true false exDbOffline 1 20 true = some hr ∧
        hr.db = dbSet exDbOffline 1 { exInstOffline with data_volume_size := 20 }) := by
  have h := set_state_all_or_nothing_amended instanceModel exDbOnline 1
    "schedule_starting" false true false exDbOffline 1 "flavor change" true
    exFlavor 20 exInstOffline
  refine ⟨h.1 (by decide), ?_, ?_⟩
  · refine ⟨⟨dbSet exDbOffline 1 { exInstOffline with ram := 2, cores := 4 }, [], [], 409,
      "Performing flavor change operation from instance state Offline is not allowed"⟩,
      by decide, ?_⟩
    exact h.2.2.1 _ (by decide) (by decide) (by decide) (by decide)
  · refine ⟨⟨dbSet exDbOffline 1 { exInstOffline with data_volume_size := 20 }, [], [], 409,
      "Performing disk extension operation from instance state Offline is not allowed"⟩,
      by decide, ?_⟩
    exact h.2.2.2 _ (by decide) (by decide) (by decide) (by decide)

/-- C10 counterexample: when the wrapped processing function raises and the
subsequent `set_state(error_state)` itself fails (here: a concurrent
conflicting commit), the `StateChangeError` is swallowed and the entity stays
in the processing state — it is not transitioned to the error state. -/
theorem tracked_processing_error_state_cex :
    (tracked_processing demoModel "begin_work" "set_online" "set_erred"
        (fun d => (d, true)) [(1, InstanceState.OFFLINE)] 1 false true).procInvoked = true
    ∧ dbGet (tracked_processing demoModel "begin_work" "set_online" "set_erred"
        (fun d => (d, true)) [(1, InstanceState.OFFLINE)] 1 false true).db 1 =
        some InstanceState.PROVISIONING
    ∧ dbGet (tracked_processing demoModel "begin_work" "set_online" "set_erred"
        (fun d => (d, true)) [(1, InstanceState.OFFLINE)] 1 false true).db 1 ≠
        some InstanceState.ERRED := by decide

/-- C10 amended: a function wrapped by `tracked_processing` never propagates
`StateChangeError`; if the initial transition to the processing state fails
the wrapped processing function is never invoked (and the table is left
untouched); and if the processing function raises, the wrapper attempts the
transition to the error state — never the desired state — so the final table
is exactly the outcome of the error-state `set_state` call (the entity
reaches the error state whenever that call itself succeeds). -/
theorem tracked_processing_amended {ε : Type} (M : ModelClass ε)
    (ps ds es : String) (procFn : Db ε → Db ε × Bool) (db : Db ε) (id : Nat)
    (c1 c2 : Bool) :
    ((tracked_processing M ps ds es procFn db id c1 c2).escaped ≠
        some SetStateError.stateChange)
    ∧ ((set_state M db id ps c1).error = some SetStateError.stateChange →
        tracked_processing M ps ds es procFn db id c1 c2 = ⟨db, false, none⟩)
    ∧ (∀ db2, (set_state M db id ps c1).error = none →
        procFn (set_state M db id ps c1).db = (db2, true) →
        (tracked_processing M ps ds es procFn db id c1 c2).db =
          (set_state M db2 id es c2).db
        ∧ (tracked_processing M ps ds es procFn db id c1 c2).procInvoked = true) := by
  refine ⟨?_, ?_, ?_⟩
  · unfold tracked_processing
    dsimp only
    split
    · simp
    · simp
    · split <;> simp
  · intro h1
    unfold tracked_processing
    dsimp only
    rw [h1]
    rw [set_state_db_unchanged_of_error M db id ps c1 (by rw [h1]; rfl)]
  · intro db2 h1 h2
    unfold tracked_processing
    dsimp only
    rw [h1, h2]
    dsimp only
    rw [if_pos rfl]
    split <;> simp

/-- C10 amended witness: on the counterexample input the initial transition
succeeds, the processing function raises, and the final table equals the
outcome of the (failed) `set_erred` call; and on a table missing the entity
the initial transition fails and the processing function is never run. -/
theorem tracked_processing_amended_witness :
    ((tracked_processing demoModel "begin_work" "set_online" "set_erred"
        (fun d => (d, true)) [(1, InstanceState.OFFLINE)] 1 false true).db =
      (set_state demoModel [(1, InstanceState.PROVISIONING)] 1 "set_erred" true).db)
    ∧ tracked_processing demoModel "begin_work" "set_online" "set_erred"
        (fun d => (d, true)) ([] : Db InstanceState) 1 false false =
        ⟨[], false, none⟩ := by
  have h1 := tracked_processing_amended demoModel "begin_work" "set_online" "set_erred"
    (fun d => (d, true)) [(1, InstanceState.OFFLINE)] 1 false true
  have h2 := tracked_processing_amended demoModel "begin_work" "set_online" "set_erred"
    (fun d => (d, true)) ([] : Db InstanceState) 1 false false
  exact ⟨(h1.2.2 [(1, InstanceState.PROVISIONING)] (by decide) (by decide)).1,
    h2.2.1 (by decide)⟩

theorem foldl_addMembership_eq (ms : List Membership) (acc : QuotaSums) :
    ms.foldl addMembership acc =
      ⟨acc.vcpu + quotaRowSum ms QuotaFields.vcpu,
       acc.ram + quotaRowSum ms QuotaFields.ram,
       acc.storage + quotaRowSum ms QuotaFields.storage,
       acc.max_instances + quotaRowSum ms QuotaFields.max_instances,
       acc.backup_storage + quotaRowSum ms QuotaFields.backup_storage,
       acc.vcpu_usage + usageRowSum ms QuotaFields.vcpu,
       acc.ram_usage + usageRowSum ms QuotaFields.ram,
       acc.storage_usage + usageRowSum ms QuotaFields.storage,
       acc.max_instances_usage + usageRowSum ms QuotaFields.max_instances,
       acc.backup_storage_usage + usageRowSum ms QuotaFields.backup_storage⟩ := by
  induction ms generalizing acc with
  | nil => simp [quotaRowSum, usageRowSum]
  | cons m ms ih =>
    rw [List.foldl_cons, ih]
    cases hq : m.resource_quota <;> cases hu : m.resource_quota_usage <;>
      simp [addMembership, quotaRowSum, usageRowSum, hq, hu, QuotaSums.mk.injEq] <;>
      omega

/-- C5: `get_sum_of_quotas` returns, in every quota field, the sum over
exactly the memberships that have a `resource_quota` row, and in every usage
field the sum over exactly the memberships that have a
`resource_quota_usage` row; memberships lacking a row contribute zero to
every field. -/
theorem get_sum_of_quotas_eq_row_sums (ms : List Membership) :
    get_sum_of_quotas ms =
      ⟨quotaRowSum ms QuotaFields.vcpu,
       quotaRowSum ms QuotaFields.ram,
       quotaRowSum ms QuotaFields.storage,
       quotaRowSum ms QuotaFields.max_instances,
       quotaRowSum ms QuotaFields.backup_storage,
       usageRowSum ms QuotaFields.vcpu,
       usageRowSum ms QuotaFields.ram,
       usageRowSum ms QuotaFields.storage,
       usageRowSum ms QuotaFields.max_instances,
       usageRowSum ms QuotaFields.backup_storage⟩ := by
  unfold get_sum_of_quotas
  rw [foldl_addMembership_eq]
  simp [QuotaSums.zero]

theorem underCustomer_subset_allIds (w : World) (T : EntityType) (c : Nat) :
    underCustomer w T c ⊆ allIds w T := by
  cases T <;>
    first
      | exact List.filter_subset' _
      | exact List.map_subset _ (List.filter_subset' _)

theorem underProjectGroup_subset_allIds (w : World) (T : EntityType) (g : Nat) :
    underProjectGroup w T g ⊆ allIds w T := by
  cases T <;>
    first
      | exact List.nil_subset _
      | exact List.map_subset _ (List.filter_subset' _)

theorem underProject_subset_allIds (w : World) (T : EntityType) (p : Nat) :
    underProject w T p ⊆ allIds w T := by
  cases T <;>
    first
      | exact List.nil_subset _
      | exact List.map_subset _ (List.filter_subset' _)

/-- For a staff or superuser the sentinel resolves to the full identifier
list. -/
theorem visibleSet_staff_full (w : World) (u : User) (T : EntityType)
    (h : (u.is_staff || u.is_superuser) = true) : visibleSet w u T = allIds w T := by
  simp [visibleSet, visible_ids, h]

/-- The visible set never contains an identifier outside the entity type. -/
theorem visibleSet_subset_allIds (w : World) (u : User) (T : EntityType) :
    visibleSet w u T ⊆ allIds w T := by
  intro x hx
  unfold visibleSet visible_ids at hx
  by_cases h : (u.is_staff || u.is_superuser) = true
  · rw [if_pos h] at hx
    exact hx
  · rw [if_neg h] at hx
    simp only [List.mem_append, List.mem_flatMap] at hx
    rcases hx with ((⟨c, _, hc⟩ | ⟨g, _, hg⟩) | ⟨p, _, hp⟩) | ⟨p, _, hp⟩
    · exact underCustomer_subset_allIds w T c hc
    · exact underProjectGroup_subset_allIds w T g hg
    · exact underProject_subset_allIds w T p hp
    · exact underProject_subset_allIds w T p hp

/-- C6: for every user the visible identifier set is a subset of the full
identifier list of the entity type, and for a staff/superuser it is exactly
the full list; accordingly, `SshKeyViewSet.get_queryset` always returns a
sub-collection of the key queryset, and for a staff user the whole of it. -/
theorem visible_ids_subset_and_staff_full (w : World) (u : User) (T : EntityType) :
    (visibleSet w u T ⊆ allIds w T)
    ∧ ((u.is_staff || u.is_superuser) = true → visibleSet w u T = allIds w T)
    ∧ (∀ keys : List SshKey, sshKeyGetQueryset u keys ⊆ keys)
    ∧ (u.is_staff = true → ∀ keys : List SshKey, sshKeyGetQueryset u keys = keys) := by
  refine ⟨visibleSet_subset_allIds w u T, visibleSet_staff_full w u T, ?_, ?_⟩
  · intro keys
    unfold sshKeyGetQueryset
    by_cases h : u.is_staff = true
    · rw [if_pos h]
      exact List.Subset.refl _
    · rw [if_neg h]
      exact List.filter_subset' _
  · intro h keys
    unfold sshKeyGetQueryset
    rw [if_pos h]

/-- C6 witness: in the concrete world the staff user's visible set is the
full instance list, and the staff user receives the whole key queryset. -/
theorem visible_ids_subset_and_staff_full_witness :
    visibleSet exW uStaffEx .vmInstance = allIds exW .vmInstance
    ∧ sshKeyGetQueryset uStaffEx [⟨1, 1⟩, ⟨2, 8⟩] = [⟨1, 1⟩, ⟨2, 8⟩] :=
  ⟨(visible_ids_subset_and_staff_full exW uStaffEx .vmInstance).2.1 (by decide),
   (visible_ids_subset_and_staff_full exW uStaffEx .vmInstance).2.2.2 (by decide) _⟩

/-- C7 counterexample: the claim's converse fails for a staff user — user 9
holds none of the listed roles over instance 40, yet 40 is in their visible
set (a staff/superuser sees everything regardless of roles). -/
theorem visible_converse_staff_cex :
    ¬ roleReachable exW uStaffEx .vmInstance 40
    ∧ 40 ∈ visibleSet exW uStaffEx .vmInstance := by
  constructor
  · intro h
    rcases h with h | h | h | h <;> revert h <;> decide
  · decide

/-- C7 amended: every entity reachable from a role held by the user through
the hierarchy (OWNER of an enclosing Customer, MANAGER of an enclosing
ProjectGroup, ADMINISTRATOR/MANAGER of the enclosing Project) is in the
user's visible set; and for a user who is neither staff nor superuser the
visible set contains exactly the role-reachable entities, so such a user
holding none of those roles over an entity does not see it. -/
theorem visible_ids_role_reachability (w : World) (u : User) (T : EntityType)
    (e : Nat) :
    (roleReachable w u T e → e ∈ visibleSet w u T)
    ∧ ((u.is_staff || u.is_superuser) = false →
        (e ∈ visibleSet w u T ↔ roleReachable w u T e)) := by
  have hmem : (u.is_staff || u.is_superuser) = false →
      (e ∈ visibleSet w u T ↔ roleReachable w u T e) := by
    intro h
    unfold visibleSet visible_ids roleReachable
    rw [if_neg (by simp [h])]
    simp only [List.mem_append, List.mem_flatMap, List.mem_map, List.mem_filter]
    constructor
    · rintro (((⟨c, ⟨r, ⟨⟨hr, hu⟩, hc⟩⟩, he⟩ | ⟨g, ⟨r, ⟨⟨hr, hu⟩, hg⟩⟩, he⟩) |
        ⟨p, ⟨r, ⟨⟨hr, hu⟩, hp⟩⟩, he⟩) | ⟨p, ⟨r, ⟨⟨hr, hu⟩, hp⟩⟩, he⟩)
      · exact Or.inl ⟨r, hr, by simpa using hu, hc ▸ he⟩
      · exact Or.inr (Or.inl ⟨r, hr, by simpa using hu, hg ▸ he⟩)
      · exact Or.inr (Or.inr (Or.inl ⟨r, hr, by simpa using hu, hp ▸ he⟩))
      · exact Or.inr (Or.inr (Or.inr ⟨r, hr, by simpa using hu, hp ▸ he⟩))
    · rintro (⟨r, hr, hu, he⟩ | ⟨r, hr, hu, he⟩ | ⟨r, hr, hu, he⟩ | ⟨r, hr, hu, he⟩)
      · exact Or.inl (Or.inl (Or.inl ⟨r.2, ⟨r, ⟨hr, by simpa using hu⟩, rfl⟩, he⟩))
      · exact Or.inl (Or.inl (Or.inr ⟨r.2, ⟨r, ⟨hr, by simpa using hu⟩, rfl⟩, he⟩))
      · exact Or.inl (Or.inr ⟨r.2, ⟨r, ⟨hr, by simpa using hu⟩, rfl⟩, he⟩)
      · exact Or.inr ⟨r.2, ⟨r, ⟨hr, by simpa using hu⟩, rfl⟩, he⟩
  refine ⟨?_, hmem⟩
  intro hrr
  by_cases h : (u.is_staff || u.is_superuser) = true
  · rw [visibleSet_staff_full w u T h]
    rcases hrr with ⟨r, _, _, he⟩ | ⟨r, _, _, he⟩ | ⟨r, _, _, he⟩ | ⟨r, _, _, he⟩
    · exact underCustomer_subset_allIds w T r.2 he
    · exact underProjectGroup_subset_allIds w T r.2 he
    · exact underProject_subset_allIds w T r.2 he
    · exact underProject_subset_allIds w T r.2 he
  · exact (hmem (by simpa using h)).mpr hrr

/-- C7 amended witness: the customer owner sees instance 40 (reachable via
ownership of customer 10), while the role-less regular user 8 does not. -/
theorem visible_ids_role_reachability_witness :
    40 ∈ visibleSet exW uOwner .vmInstance
    ∧ ¬ 40 ∈ visibleSet exW uNobody .vmInstance := by
  constructor
  · exact (visible_ids_role_reachability exW uOwner .vmInstance 40).1
      (Or.inl ⟨(1, 10), by decide, by decide, by decide⟩)
  · intro h
    have := ((visible_ids_role_reachability exW uNobody .vmInstance 40).2 (by decide)).mp h
    rcases this with h' | h' | h' | h' <;> revert h' <;> decide

/-- C8: filtering a collection through the permission scope filter twice
yields the same collection as filtering it once. -/
theorem filter_collection_idempotent (w : World) (u : User) (T : EntityType)
    (C : List Nat) :
    filter_collection w u T (filter_collection w u T C) = filter_collection w u T C := by
  unfold filter_collection
  cases h : visible_ids w u T with
  | none => rfl
  | some ids => simp [List.filter_filter]

/-- C9: when the user's visible set is empty, the permission scope filter
returns the empty collection (a valid, silent outcome of the total
function). -/
theorem filter_collection_empty_visible (w : World) (u : User) (T : EntityType)
    (C : List Nat) (h : visible_ids w u T = some []) :
    filter_collection w u T C = [] := by
  unfold filter_collection
  rw [h]
  simp

/-- C9 witness: the role-less regular user has an empty visible set, and
filtering the full instance collection for them yields the empty
collection. -/
theorem filter_collection_empty_visible_witness :
    filter_collection exW uNobody .vmInstance [40, 41] = [] :=
  filter_collection_empty_visible exW uNobody .vmInstance [40, 41] (by decide)

end NodeConductor
